import Mathlib

/-!
Verification of the traffic-shaping control plane of the `qc` repository
(Docker-based network traffic shaping playground).

The embedding follows the sources:
* `src/router/scripts/init_tc.sh` — per-interface HTB hierarchy setup and
  ingress redirect to the paired IFB device.
* `src/router/entrypoint.sh` (second document: `apply_rules.sh`) — replay of
  persisted rules from the JSON rules file.
* `src/router/scripts/restore_rules.sh` — restart restore procedure.
* `src/unnamed/part_000` (RulesPanel) — `cleanBandwidth`, `handleApply`,
  `generateTcCommands` (the in-repo shaping command translation).
* `src/unnamed/part_001` (BandwidthChart) — bounded history window.
* `src/unnamed/part_002` (types) — the `Device` status enumeration.
* `src/frontend/src/hooks/useSSE.ts` — metrics stream event handling.
* `src/frontend/src/components/ClusterManager.tsx` — `getStatusColor`.

Shell commands issued to the kernel (`tc`, `ip`) are modelled as an explicit
operation datatype `TcOp`; the kernel itself is an external collaborator, so
where a script observes a command exit status the model takes the outcome as
a boolean-valued parameter.
-/

set_option autoImplicit false

namespace QC

/-- JavaScript truthiness of an optional string field: `undefined`/`null` and
the empty string are falsy, every other string is truthy.  Used for the
`||`-chains and `&&`-guards in `RulesPanel.tsx` (src/unnamed/part_000). -/
def jsTruthy : Option String → Bool
  | none => false
  | some s => s != ""

/-- A kernel-facing traffic-control operation, as issued by the shell scripts
and by `generateTcCommands` in the rules panel.  `filterRedirect dev parent
target` is the `u32 match u32 0 0 action mirred egress redirect` filter of
`init_tc.sh` line 132: it redirects all inbound IP traffic of `dev` to
`target`. -/
inductive TcOp where
  | qdiscDelRoot (dev : String)
  | qdiscDelIngress (dev : String)
  | qdiscAddHtb (dev handle defaultMinor : String)
  | qdiscAddIngress (dev handle : String)
  | classAddParent (dev parent classid rate : String)
  | classAddChild (dev parent classid rate ceil : String) (prio : Nat)
  | classChange (dev parent classid rate ceil : String)
  | filterTos (dev parent : String) (prio tos : Nat) (flowid : String)
  | filterRedirect (dev parent target : String)
  deriving DecidableEq, Repr

/-- The per-interface body of the setup loop of `init_tc.sh` lines 92-158:
downstream HTB hierarchy under handle `1:` on the physical interface, and —
when the paired IFB device exists — the ingress redirect plus the same
hierarchy under handle `2:` on the IFB device. -/
def initTcInterface (iface ifb : String) (ifbExists : Bool) : List TcOp :=
  [ TcOp.qdiscDelRoot iface,
    TcOp.qdiscAddHtb iface "1:" "30",
    TcOp.classAddParent iface "1:" "1:1" "10gbit",
    TcOp.classAddChild iface "1:1" "1:10" "50mbit" "100mbit" 1,
    TcOp.classAddChild iface "1:1" "1:20" "30mbit" "80mbit" 2,
    TcOp.classAddChild iface "1:1" "1:30" "10gbit" "10gbit" 3,
    TcOp.filterTos iface "1:" 1 0x10 "1:10",
    TcOp.filterTos iface "1:" 2 0x08 "1:20" ]
  ++ (if ifbExists then
    [ TcOp.qdiscDelIngress iface,
      TcOp.qdiscAddIngress iface "ffff:",
      TcOp.filterRedirect iface "ffff:" ifb,
      TcOp.qdiscDelRoot ifb,
      TcOp.qdiscAddHtb ifb "2:" "30",
      TcOp.classAddParent ifb "2:" "2:1" "10gbit",
      TcOp.classAddChild ifb "2:1" "2:10" "50mbit" "100mbit" 1,
      TcOp.classAddChild ifb "2:1" "2:20" "30mbit" "80mbit" 2,
      TcOp.classAddChild ifb "2:1" "2:30" "10gbit" "10gbit" 3,
      TcOp.filterTos ifb "2:" 1 0x10 "2:10",
      TcOp.filterTos ifb "2:" 2 0x08 "2:20" ]
  else [])

/-- An interface detected by the IP-based mapping loop of `init_tc.sh`
lines 14-50 (physical interface, client name, paired IFB device, and whether
the IFB device was found on the system). -/
structure IfaceInfo where
  iface : String
  client : String
  ifb : String
  ifbExists : Bool
  deriving DecidableEq, Repr

/-- `init_tc.sh` main loop: run the per-interface setup on every detected
interface, in detection order. -/
def initTc : List IfaceInfo → List TcOp
  | [] => []
  | d :: rest => initTcInterface d.iface d.ifb d.ifbExists ++ initTc rest

/-- One record of the persisted rules file, as read by `apply_rules.sh`
(the jq projections on lines 75-78, fields `interface`, `class`, `rate`,
`ceil`; the JSON key of `classId` is `class`).  Note the record is keyed by
interface and carries a single rate/ceil pair. -/
structure PersistedRule where
  interface : String
  classId : String
  rate : String
  ceil : String
  deriving DecidableEq, Repr

/-- The `tc class change` command issued for one persisted record
(`apply_rules.sh` line 89): downstream only, parent `1:1` on the record's
interface. -/
def ruleOp (r : PersistedRule) : TcOp :=
  TcOp.classChange r.interface "1:1" r.classId r.rate r.ceil

/-- The warning logged when a record's interface no longer exists
(`apply_rules.sh` line 82). -/
def warnOf (r : PersistedRule) : String :=
  "Warning: Interface " ++ r.interface ++ " not found, skipping rule"

/-- The rule loop of `apply_rules.sh` lines 74-96.  `present` models
`ip link show`, `tcOk` the exit status of `tc class change` (the script runs
under `set -e`, so a failing `tc` aborts the script, modelled as `.error`).
A record whose interface is absent is skipped with a warning and the loop
continues. -/
def replayRules (present : String → Bool) (tcOk : TcOp → Bool) :
    List PersistedRule → Except String (List TcOp × List String)
  | [] => Except.ok ([], [])
  | r :: rest =>
    if present r.interface then
      if tcOk (ruleOp r) then
        match replayRules present tcOk rest with
        | Except.ok (ops, ws) => Except.ok (ruleOp r :: ops, ws)
        | Except.error e => Except.error e
      else Except.error ("Failed to apply rule on " ++ r.interface)
    else
      match replayRules present tcOk rest with
      | Except.ok (ops, ws) => Except.ok (ops, warnOf r :: ws)
      | Except.error e => Except.error e

/-- `restore_rules.sh`: when the persisted rules file exists, first run
`init_tc.sh` (default hierarchy on every detected interface), then replay the
persisted records through `apply_rules.sh`; without a rules file, only the
default initialization runs. -/
def restoreRules (fileExists : Bool) (detected : List IfaceInfo)
    (present : String → Bool) (tcOk : TcOp → Bool)
    (rules : List PersistedRule) : Except String (List TcOp × List String) :=
  if fileExists then
    match replayRules present tcOk rules with
    | Except.ok (ops, ws) => Except.ok (initTc detected ++ ops, ws)
    | Except.error e => Except.error e
  else Except.ok (initTc detected, [])

/-- A traffic rule as held by the frontend (`TrafficRule` in
`src/frontend/src/types/metrics.ts`): optional bidirectional fields plus the
legacy `rate`/`ceil` pair. -/
structure TrafficRule where
  interface : String
  client : String
  class_id : String
  downstream_rate : Option String
  downstream_ceil : Option String
  upstream_rate : Option String
  upstream_ceil : Option String
  rate : Option String
  ceil : Option String
  deriving DecidableEq, Repr

/-- A JavaScript `a || b || d` fallback chain over two optional string fields
with a final string default, as used in `generateTcCommands`. -/
def pickStr (a b : Option String) (d : String) : String :=
  if jsTruthy a then a.getD "" else if jsTruthy b then b.getD "" else d

/-- Downstream rate of a rule: `rule.downstream_rate || rule.rate || '1gbit'`
(`generateTcCommands`, src/unnamed/part_000 line 355). -/
def downRate (r : TrafficRule) : String :=
  pickStr r.downstream_rate r.rate "1gbit"

/-- Downstream ceil of a rule: `rule.downstream_ceil || rule.ceil || '1gbit'`. -/
def downCeil (r : TrafficRule) : String :=
  pickStr r.downstream_ceil r.ceil "1gbit"

/-- Upstream rate of a rule: `rule.upstream_rate || '1gbit'`. -/
def upRate (r : TrafficRule) : String :=
  pickStr r.upstream_rate none "1gbit"

/-- Upstream ceil of a rule: `rule.upstream_ceil || '1gbit'`. -/
def upCeil (r : TrafficRule) : String :=
  pickStr r.upstream_ceil none "1gbit"

/-- Guard of the upstream command in `generateTcCommands` line 363:
`device?.ifb_device && (rule.upstream_rate || rule.upstream_ceil)`. -/
def upstreamCond (r : TrafficRule) (ifbDev : Option String) : Bool :=
  jsTruthy ifbDev && (jsTruthy r.upstream_rate || jsTruthy r.upstream_ceil)

/-- The shaping operations emitted for one rule by `generateTcCommands`
(src/unnamed/part_000 lines 347-376), comment lines omitted: one downstream
`tc class change` on the physical interface (parent `1:1`, classid `1:30`),
then — only under `upstreamCond` — one upstream `tc class change` on the
paired IFB device (parent `2:1`, classid `2:30`). -/
def translateRule (r : TrafficRule) (ifbDev : Option String) : List TcOp :=
  TcOp.classChange r.interface "1:1" "1:30" (downRate r) (downCeil r)
    :: (if upstreamCond r ifbDev then
          [TcOp.classChange (ifbDev.getD "") "2:1" "2:30" (upRate r) (upCeil r)]
        else [])

/-- The `parent` argument of a class-change operation, if any. -/
def opParent : TcOp → Option String
  | TcOp.classChange _ p _ _ _ => some p
  | _ => none

/-- The downstream operation `generateTcCommands` emits for a rule. -/
def downOpOf (r : TrafficRule) : TcOp :=
  TcOp.classChange r.interface "1:1" "1:30" (downRate r) (downCeil r)

/-- The upstream operation `generateTcCommands` emits for a rule when the
upstream guard holds. -/
def upOpOf (r : TrafficRule) (ifbDev : Option String) : TcOp :=
  TcOp.classChange (ifbDev.getD "") "2:1" "2:30" (upRate r) (upCeil r)

/-- Root HTB qdiscs among a list of operations: (device, handle, default
class minor). -/
def htbRoots (ops : List TcOp) : List (String × String × String) :=
  ops.filterMap fun op => match op with
    | TcOp.qdiscAddHtb d h dm => some (d, h, dm)
    | _ => none

/-- Parent classes among a list of operations: (device, parent handle,
classid, rate). -/
def parentClasses (ops : List TcOp) : List (String × String × String × String) :=
  ops.filterMap fun op => match op with
    | TcOp.classAddParent d p c r => some (d, p, c, r)
    | _ => none

/-- Child classes added under a given parent class: (device, classid, rate,
ceil, priority). -/
def childClasses (parent : String) (ops : List TcOp) :
    List (String × String × String × String × Nat) :=
  ops.filterMap fun op => match op with
    | TcOp.classAddChild d p c r ce pr =>
      if p = parent then some (d, c, r, ce, pr) else none
    | _ => none

/-- Ingress qdiscs among a list of operations: (device, handle). -/
def ingressAdds (ops : List TcOp) : List (String × String) :=
  ops.filterMap fun op => match op with
    | TcOp.qdiscAddIngress d h => some (d, h)
    | _ => none

/-- Ingress-redirect filters among a list of operations: (device, parent
handle, target device). -/
def redirectsOf (ops : List TcOp) : List (String × String × String) :=
  ops.filterMap fun op => match op with
    | TcOp.filterRedirect d p t => some (d, p, t)
    | _ => none

/-- Downstream class-change operations carry parent `1:1`. -/
def isDownChange (op : TcOp) : Bool := opParent op == some "1:1"

/-- Upstream class-change operations carry parent `2:1`. -/
def isUpChange (op : TcOp) : Bool := opParent op == some "2:1"

/-- Kernel class state observed through `tc class show`: the (rate, ceil)
pair in force per (device, classid). -/
abbrev TcState := List ((String × String) × (String × String))

/-- Set the parameters of one class, replacing a previous entry for the same
(device, classid) key. -/
def setClass : TcState → (String × String) → (String × String) → TcState
  | [], k, v => [(k, v)]
  | e :: rest, k, v => if e.1 = k then (k, v) :: rest else e :: setClass rest k v

/-- Effect of one operation on the observable class state.  `class add` with
no explicit ceil (the HTB parent class) defaults the ceil to the rate, as the
kernel does; deleting the root qdisc of a device drops all its classes. -/
def applyOp (s : TcState) : TcOp → TcState
  | TcOp.qdiscDelRoot dev => s.filter (fun e => e.1.1 != dev)
  | TcOp.classAddParent dev _ cid rate => setClass s (dev, cid) (rate, rate)
  | TcOp.classAddChild dev _ cid rate ceil _ => setClass s (dev, cid) (rate, ceil)
  | TcOp.classChange dev _ cid rate ceil => setClass s (dev, cid) (rate, ceil)
  | _ => s

/-- Run a list of operations against a class state. -/
def runOps (ops : List TcOp) (s : TcState) : TcState := ops.foldl applyOp s

/-- Look up the (rate, ceil) pair in force for a (device, classid) key. -/
def getClass (s : TcState) (k : String × String) : Option (String × String) :=
  (s.find? (fun e => e.1 == k)).map (fun e => e.2)

/-- The IP → (client, IFB device) mapping of `init_tc.sh` lines 28-49: an
interface holding the shaping endpoint address `10.N.0.254` serves slot `N`. -/
def ipToClient : Nat × Nat × Nat × Nat → Option (String × String)
  | (10, 1, 0, 254) => some ("pc1", "ifb1")
  | (10, 2, 0, 254) => some ("pc2", "ifb2")
  | (10, 3, 0, 254) => some ("mb1", "ifb3")
  | (10, 4, 0, 254) => some ("mb2", "ifb4")
  | _ => none

/-- Subnet of a device slot, as octets of the `/24` network address: the
repository README (src/unnamed/part_003 lines 259-261) documents subnet
`10.X.0.0/24` for slot `X`. -/
def subnetOfSlot (n : Nat) : Nat × Nat × Nat := (10, n, 0)

/-- Static device IP of a slot: `10.X.0.10` (README, part_003 line 260). -/
def deviceIpOfSlot (n : Nat) : Nat × Nat × Nat × Nat := (10, n, 0, 10)

/-- Shaping-endpoint (router) IP of a slot: `10.X.0.254` (README and the
`init_tc.sh` mapping). -/
def routerIpOfSlot (n : Nat) : Nat × Nat × Nat × Nat := (10, n, 0, 254)

/-- Physical/egress interface name of a slot: `ethN` (README, part_003
line 261). -/
def ethOfSlot (n : Nat) : String := "eth" ++ toString n

/-- Paired virtual ingress-redirect device of a slot: `ifbN` (README and the
`init_tc.sh` mapping). -/
def ifbOfSlot (n : Nat) : String := "ifb" ++ toString n

/-- First octet of a subnet. -/
def firstOctet (s : Nat × Nat × Nat) : Nat := s.1

/-- Second octet of a subnet. -/
def secondOctet (s : Nat × Nat × Nat) : Nat := s.2.1

/-- Third octet of a subnet. -/
def thirdOctet (s : Nat × Nat × Nat) : Nat := s.2.2

/-- Last (host) octet of an IPv4 address given as four octets. -/
def hostOctet (ip : Nat × Nat × Nat × Nat) : Nat := ip.2.2.2

/-- The `/24` network an IPv4 address belongs to: its first three octets. -/
def netOf (ip : Nat × Nat × Nat × Nat) : Nat × Nat × Nat :=
  (ip.1, ip.2.1, ip.2.2.1)

/-- Modelled from the spec: the rule-persistence writer is not under `src/`
(only the replay script `apply_rules.sh` is).  Following §4.5/§6 of the spec
— "superseded (not appended) on reapply" — writing a record replaces any
prior record with the same key; the key is the `interface` field, the only
key the replay script reads. -/
def persistRecord (store : List PersistedRule) (r : PersistedRule) :
    List PersistedRule :=
  store.filter (fun x => x.interface != r.interface) ++ [r]

/-- The device lifecycle status enumeration (`Device.status` in
src/unnamed/part_002 line 18: `'stopped' | 'starting' | 'running' |
'stopping' | 'error'`). -/
inductive Status where
  | stopped
  | starting
  | running
  | stopping
  | error
  deriving DecidableEq, Repr

/-- Status pill colour mapping (`getStatusColor`,
src/frontend/src/components/ClusterManager.tsx lines 261-270). -/
def getStatusColor : Status → String
  | Status.running => "bg-green-500"
  | Status.starting => "bg-yellow-500 animate-pulse"
  | Status.stopping => "bg-orange-500 animate-pulse"
  | Status.stopped => "bg-gray-500"
  | Status.error => "bg-red-500"

/-- Modelled from the spec: the Lifecycle Manager performing transition
validation is not under `src/` (the frontend only displays the status).
Following §3/§4.3 of the spec, the valid transitions are
`stopped → starting → running`, `running → stopping → stopped`, and any
state `→ error` on failure. -/
def validTransition : Status → Status → Bool
  | _, Status.error => true
  | Status.stopped, Status.starting => true
  | Status.starting, Status.running => true
  | Status.running, Status.stopping => true
  | Status.stopping, Status.stopped => true
  | _, _ => false

/-- Replace the first occurrence of `Mbit` by `mbit` in a character list —
the JavaScript `value.replace('Mbit', 'mbit')` of `cleanBandwidth`
(src/unnamed/part_000 line 191). -/
def replFirstMbit : List Char → List Char
  | [] => []
  | c :: rest =>
    if ['M', 'b', 'i', 't'].isPrefixOf (c :: rest) then
      ['m', 'b', 'i', 't'] ++ rest.drop 3
    else c :: replFirstMbit rest

/-- String version of `replace('Mbit', 'mbit')`. -/
def jsReplaceMbit (s : String) : String := String.mk (replFirstMbit s.data)

/-- `cleanBandwidth` from the rules panel (src/unnamed/part_000 lines
189-195): falsy values (absent or empty) display as empty; `Mbit` is
rewritten to `mbit`; the unlimited sentinel `1gbit`/`1Gbit` is hidden as the
empty string. -/
def cleanBandwidth : Option String → String
  | none => ""
  | some v =>
    if v = "" then ""
    else
      let normalized := jsReplaceMbit v
      if normalized = "1gbit" ∨ normalized = "1Gbit" then "" else normalized

/-- `handleApply` input defaulting (src/unnamed/part_000 lines 262-270):
an empty input field is sent as the unlimited sentinel `1gbit`. -/
def applyDefault (s : String) : String := if s = "" then "1gbit" else s

/-- JavaScript `list.slice(-n)`: the `n` most recent entries (all of them
when fewer than `n` exist). -/
def jsSliceLast {α : Type} (n : Nat) (l : List α) : List α :=
  l.drop (l.length - n)

/-- The `setHistory` updater of `BandwidthChart` (src/unnamed/part_001 lines
90-94): append the new point, then keep the last 60 entries. -/
def historyStep {α : Type} (prev : List α) (p : α) : List α :=
  jsSliceLast 60 (prev ++ [p])

/-- The state of the `useSSE` hook that the `metrics` listener touches:
the last parsed snapshot and the error, generic in the snapshot type (the
payload is parsed by the external `JSON.parse`). -/
structure SSEState (M : Type) where
  data : Option M
  error : Option String
  deriving DecidableEq, Repr

/-- The `metrics` event listener of `useSSE.ts` lines 22-30: a payload that
parses replaces `data`; a payload that fails to parse leaves `data` alone
and sets `error`. -/
def handleMetricsEvent {M : Type} (parseSnap : String → Option M)
    (s : SSEState M) (payload : String) : SSEState M :=
  match parseSnap payload with
  | some m => { s with data := some m }
  | none => { s with error := some "Failed to parse metrics" }

/-! Concrete instances used by the witnesses. -/

/-- A detected-interface list with a single live interface `eth2`. -/
def demoDetected : List IfaceInfo := [⟨"eth2", "pc2", "ifb2", true⟩]

/-- Device presence check: only `eth2` exists. -/
def demoPresent : String → Bool := fun s => s == "eth2"

/-- Device presence check: every interface exists. -/
def allPresent : String → Bool := fun _ => true

/-- A kernel collaborator on which every `tc` command succeeds. -/
def demoTcOk : TcOp → Bool := fun _ => true

/-- A persisted record for `eth1`, the interface of a deleted device. -/
def staleRule : PersistedRule := ⟨"eth1", "1:30", "20mbit", "50mbit"⟩

/-- A frontend rule with all four fields set to the same value `v`, as built
by `handleApply` for the unlimited sentinel. -/
def ruleAllOf (v : String) : TrafficRule :=
  { interface := "eth1", client := "pc1", class_id := "1:30",
    downstream_rate := some v, downstream_ceil := some v,
    upstream_rate := some v, upstream_ceil := some v,
    rate := none, ceil := none }

/-- A toy payload parser standing in for `JSON.parse`: only the payload
`"snap"` parses (to `7`). -/
def demoParse : String → Option Nat :=
  fun s => if s = "snap" then some 7 else none

/-! Helper lemmas. -/

/-- Characterization of a successful replay: when `tc` succeeds on every
record whose interface is present, the loop completes with one class-change
per live record and one warning per stale record, in file order. -/
theorem replayRules_ok (present : String → Bool) (tcOk : TcOp → Bool) :
    ∀ rules : List PersistedRule,
      (∀ r ∈ rules, present r.interface = true → tcOk (ruleOp r) = true) →
      replayRules present tcOk rules =
        Except.ok ((rules.filter (fun r => present r.interface)).map ruleOp,
                   (rules.filter (fun r => !present r.interface)).map warnOf)
  | [], _ => rfl
  | r :: rest, h => by
    have hrest := replayRules_ok present tcOk rest
      (fun x hx => h x (List.mem_cons_of_mem r hx))
    by_cases hp : present r.interface = true
    · have htc := h r (List.mem_cons_self r rest) hp
      simp [replayRules, hp, htc, hrest, List.filter_cons]
    · have hp' : present r.interface = false := by
        cases hq : present r.interface
        · rfl
        · exact absurd hq hp
      simp [replayRules, hp', hrest, List.filter_cons]

/-- Every detected interface's setup block appears inside the full
initialization sequence. -/
theorem initTcInterface_within_initTc (d : IfaceInfo) :
    ∀ l : List IfaceInfo, d ∈ l →
      initTcInterface d.iface d.ifb d.ifbExists <:+: initTc l
  | [], h => absurd h (List.not_mem_nil d)
  | e :: rest, h => by
    rcases List.mem_cons.mp h with h1 | h2
    · subst h1
      exact ⟨[], initTc rest, by simp [initTc]⟩
    · obtain ⟨s, t, hst⟩ := initTcInterface_within_initTc d rest h2
      exact ⟨initTcInterface e.iface e.ifb e.ifbExists ++ s, t,
        by simp [initTc, ← hst, List.append_assoc]⟩

/-- Writing a record then filtering the store for its key yields exactly
that record. -/
theorem filter_key_aux (r : PersistedRule) :
    ∀ l : List PersistedRule,
      ((l.filter (fun x => x.interface != r.interface)) ++ [r]).filter
        (fun x => x.interface == r.interface) = [r]
  | [] => by simp
  | s :: rest => by
    by_cases hs : s.interface = r.interface
    · simp [List.filter_cons, hs, filter_key_aux r rest]
    · simp [List.filter_cons, hs, filter_key_aux r rest]

/-! Claim theorems. -/

/-- C1: On restart with a persisted rules file present, the restore
procedure first runs the default initialization on every detected interface
and then replays every persisted record; a record whose interface no longer
exists contributes only a logged warning, the remaining records are still
replayed, and the whole restore returns without an error. -/
theorem c1_restore (detected : List IfaceInfo) (present : String → Bool)
    (tcOk : TcOp → Bool) (rules : List PersistedRule)
    (h : ∀ r ∈ rules, present r.interface = true → tcOk (ruleOp r) = true) :
    restoreRules true detected present tcOk rules =
      Except.ok
        (initTc detected ++ (rules.filter (fun r => present r.interface)).map ruleOp,
         (rules.filter (fun r => !present r.interface)).map warnOf) ∧
    ∀ d ∈ detected, initTcInterface d.iface d.ifb d.ifbExists <:+: initTc detected := by
  constructor
  · simp [restoreRules, replayRules_ok present tcOk rules h]
  · intro d hd
    exact initTcInterface_within_initTc d detected hd

/-- C1 witness: one persisted rule for the deleted device on `eth1`, one
live detected interface `eth2`: restore succeeds, `eth2` is initialized,
and the stale record yields exactly the warning. -/
theorem c1_restore_witness :
    (∀ r ∈ [staleRule], demoPresent r.interface = true → demoTcOk (ruleOp r) = true) ∧
    (restoreRules true demoDetected demoPresent demoTcOk [staleRule] =
      Except.ok
        (initTc demoDetected ++
           ([staleRule].filter (fun r => demoPresent r.interface)).map ruleOp,
         ([staleRule].filter (fun r => !demoPresent r.interface)).map warnOf) ∧
     ∀ d ∈ demoDetected,
       initTcInterface d.iface d.ifb d.ifbExists <:+: initTc demoDetected) :=
  ⟨by decide, c1_restore demoDetected demoPresent demoTcOk [staleRule] (by decide)⟩

/-- C2: the code diverges from the unlimited-default equivalence.  A freshly
initialized device holds `10gbit/10gbit` on its default classes `1:30` and
`2:30` (init_tc.sh lines 108 and 152), while explicitly applying the
`1gbit/1gbit/1gbit/1gbit` sentinel rule leaves `1gbit/1gbit` — an observably
different shaping state, although the README documents `1gbit` as
"effectively unlimited". -/
theorem c2_unlimited_divergence :
    getClass (runOps (initTcInterface "eth1" "ifb1" true) []) ("eth1", "1:30") =
      some ("10gbit", "10gbit") ∧
    getClass (runOps (initTcInterface "eth1" "ifb1" true) []) ("ifb1", "2:30") =
      some ("10gbit", "10gbit") ∧
    getClass (runOps (translateRule (ruleAllOf "1gbit") (some "ifb1"))
        (runOps (initTcInterface "eth1" "ifb1" true) [])) ("eth1", "1:30") =
      some ("1gbit", "1gbit") ∧
    getClass (runOps (translateRule (ruleAllOf "1gbit") (some "ifb1"))
        (runOps (initTcInterface "eth1" "ifb1" true) [])) ("ifb1", "2:30") =
      some ("1gbit", "1gbit") ∧
    getClass (runOps (translateRule (ruleAllOf "1gbit") (some "ifb1"))
        (runOps (initTcInterface "eth1" "ifb1" true) [])) ("eth1", "1:30") ≠
      getClass (runOps (initTcInterface "eth1" "ifb1" true) []) ("eth1", "1:30") := by
  decide

/-- C3: for every rule the translation emits exactly one downstream
class-change, against the rule's interface with classid `1:30`; it emits an
upstream class-change against the paired IFB device (classid `2:30`) exactly
when the device has a truthy paired IFB device and at least one upstream
field is set; and the downstream operation comes first. -/
theorem c3_translator (r : TrafficRule) (ifbDev : Option String) :
    (translateRule r ifbDev).filter isDownChange = [downOpOf r] ∧
    (translateRule r ifbDev).filter isUpChange =
      (if upstreamCond r ifbDev then [upOpOf r ifbDev] else []) ∧
    (upstreamCond r ifbDev = true ↔
      (jsTruthy ifbDev = true ∧
        (jsTruthy r.upstream_rate = true ∨ jsTruthy r.upstream_ceil = true))) ∧
    (translateRule r ifbDev).head? = some (downOpOf r) ∧
    (translateRule r ifbDev).tail =
      (if upstreamCond r ifbDev then [upOpOf r ifbDev] else []) := by
  refine ⟨?_, ?_, ?_, ?_, ?_⟩
  · cases h : upstreamCond r ifbDev <;>
      simp [translateRule, h, isDownChange, isUpChange, opParent, downOpOf, upOpOf,
        List.filter_cons]
  · cases h : upstreamCond r ifbDev <;>
      simp [translateRule, h, isDownChange, isUpChange, opParent, downOpOf, upOpOf,
        List.filter_cons]
  · simp [upstreamCond, Bool.and_eq_true, Bool.or_eq_true]
  · cases h : upstreamCond r ifbDev <;> simp [translateRule, h, downOpOf]
  · cases h : upstreamCond r ifbDev <;> simp [translateRule, h, upOpOf]

/-- C4: per configured interface (IFB present), initialization installs one
root HTB qdisc per device with default minor `30`, one parent class capped
at the nominal `10gbit`, exactly three priority children (high `50/100mbit`
prio 1, medium `30/80mbit` prio 2, low `10gbit` prio 3 — the low classid
`x:30` being the default and the class the per-device rules change), an
ingress qdisc plus a redirect of all inbound IP traffic to the paired IFB
device, and the identical child hierarchy on the IFB device under the second
handle `2:`. -/
theorem c4_init_hierarchy (iface ifb : String) :
    htbRoots (initTcInterface iface ifb true) =
      [(iface, "1:", "30"), (ifb, "2:", "30")] ∧
    parentClasses (initTcInterface iface ifb true) =
      [(iface, "1:", "1:1", "10gbit"), (ifb, "2:", "2:1", "10gbit")] ∧
    childClasses "1:1" (initTcInterface iface ifb true) =
      [(iface, "1:10", "50mbit", "100mbit", 1),
       (iface, "1:20", "30mbit", "80mbit", 2),
       (iface, "1:30", "10gbit", "10gbit", 3)] ∧
    childClasses "2:1" (initTcInterface iface ifb true) =
      [(ifb, "2:10", "50mbit", "100mbit", 1),
       (ifb, "2:20", "30mbit", "80mbit", 2),
       (ifb, "2:30", "10gbit", "10gbit", 3)] ∧
    (childClasses "1:1" (initTcInterface iface ifb true)).map (fun x => x.2.2) =
      (childClasses "2:1" (initTcInterface iface ifb true)).map (fun x => x.2.2) ∧
    ingressAdds (initTcInterface iface ifb true) = [(iface, "ffff:")] ∧
    redirectsOf (initTcInterface iface ifb true) = [(iface, "ffff:", ifb)] := by
  refine ⟨rfl, rfl, rfl, rfl, rfl, rfl, rfl⟩

/-- C5 counterexample: for slot 1 the shaping endpoint sits at `10.1.0.254`
(mapped to client `pc1` and device `ifb1` by init_tc.sh), so the slot's
`/24` subnet is `10.1.0.0/24`: its third octet is `0`, not the slot
index `1`. -/
theorem c5_counterexample :
    ipToClient (routerIpOfSlot 1) = some ("pc1", "ifb1") ∧
    thirdOctet (subnetOfSlot 1) = 0 ∧
    ¬ thirdOctet (subnetOfSlot 1) = 1 := by
  decide

/-- C5 amended: the allocator deterministically derives, for slot `n`, the
`/24` subnet `10.n.0.0` whose second octet is the slot index (third octet
`0`), device IP `.10` and shaping-endpoint IP `.254` of that subnet, the
physical interface `ethN` and the paired IFB device `ifbN`; for the four
slots of the detection table these agree with the `init_tc.sh` mapping. -/
theorem c5_allocator (n : Nat) :
    secondOctet (subnetOfSlot n) = n ∧
    thirdOctet (subnetOfSlot n) = 0 ∧
    firstOctet (subnetOfSlot n) = 10 ∧
    netOf (deviceIpOfSlot n) = subnetOfSlot n ∧
    hostOctet (deviceIpOfSlot n) = 10 ∧
    netOf (routerIpOfSlot n) = subnetOfSlot n ∧
    hostOctet (routerIpOfSlot n) = 254 ∧
    ethOfSlot n = "eth" ++ toString n ∧
    ifbOfSlot n = "ifb" ++ toString n ∧
    (ipToClient (routerIpOfSlot 1) = some ("pc1", ifbOfSlot 1) ∧
     ipToClient (routerIpOfSlot 2) = some ("pc2", ifbOfSlot 2) ∧
     ipToClient (routerIpOfSlot 3) = some ("mb1", ifbOfSlot 3) ∧
     ipToClient (routerIpOfSlot 4) = some ("mb2", ifbOfSlot 4)) :=
  ⟨rfl, rfl, rfl, rfl, rfl, rfl, rfl, rfl, rfl, by decide⟩

/-- C6 counterexample: replaying the persisted record
`{interface: "eth1", class: "1:30", rate: "20mbit", ceil: "50mbit"}` (the
format read by apply_rules.sh — keyed by interface, a single rate/ceil
pair, no client and no upstream fields) emits exactly one downstream
class-change and no upstream operation, refuting that a persisted record
carries four rate/ceil fields all applied on replay. -/
theorem c6_counterexample :
    replayRules allPresent demoTcOk [staleRule] =
      Except.ok ([TcOp.classChange "eth1" "1:1" "1:30" "20mbit" "50mbit"], []) ∧
    ([TcOp.classChange "eth1" "1:1" "1:30" "20mbit" "50mbit"] : List TcOp).filter
        isUpChange = [] ∧
    ([TcOp.classChange "eth1" "1:1" "1:30" "20mbit" "50mbit"] : List TcOp).length
        = 1 :=
  ⟨rfl, by decide, rfl⟩

/-- C6 amended: a persisted record is keyed by its interface and carries a
class id and one rate/ceil pair; replaying it applies exactly that pair to
the downstream class of its interface, and writing a record supersedes any
prior record with the same interface key (writer modelled from the spec). -/
theorem c6_record_replay (present : String → Bool) (tcOk : TcOp → Bool)
    (r : PersistedRule) (store : List PersistedRule)
    (hp : present r.interface = true) (ht : tcOk (ruleOp r) = true) :
    replayRules present tcOk [r] =
      Except.ok ([TcOp.classChange r.interface "1:1" r.classId r.rate r.ceil], []) ∧
    (persistRecord store r).filter (fun x => x.interface == r.interface) = [r] := by
  constructor
  · have ht' : tcOk (TcOp.classChange r.interface "1:1" r.classId r.rate r.ceil) = true := by
      simpa [ruleOp] using ht
    simp [replayRules, hp, ht', ruleOp]
  · simp only [persistRecord]
    exact filter_key_aux r store

/-- C6 witness: the concrete record for `eth1` with every interface present
and `tc` succeeding. -/
theorem c6_record_replay_witness :
    allPresent staleRule.interface = true ∧
    demoTcOk (ruleOp staleRule) = true ∧
    (replayRules allPresent demoTcOk [staleRule] =
      Except.ok
        ([TcOp.classChange staleRule.interface "1:1" staleRule.classId
            staleRule.rate staleRule.ceil], []) ∧
     (persistRecord [] staleRule).filter
        (fun x => x.interface == staleRule.interface) = [staleRule]) :=
  ⟨by decide, by decide,
    c6_record_replay allPresent demoTcOk staleRule [] (by decide) (by decide)⟩

/-- C7: the device status is exactly the five values stopped, starting,
running, stopping, error, and the valid transitions (validation modelled
from the spec, the enumeration from src/unnamed/part_002) are precisely
stopped→starting, starting→running, running→stopping, stopping→stopped,
and any state →error. -/
theorem c7_status_machine :
    (∀ s : Status, s = Status.stopped ∨ s = Status.starting ∨ s = Status.running ∨
      s = Status.stopping ∨ s = Status.error) ∧
    (∀ s t : Status, validTransition s t = true ↔
      ((s = Status.stopped ∧ t = Status.starting) ∨
       (s = Status.starting ∧ t = Status.running) ∨
       (s = Status.running ∧ t = Status.stopping) ∨
       (s = Status.stopping ∧ t = Status.stopped) ∨
       t = Status.error)) := by
  constructor
  · intro s
    cases s <;> simp
  · intro s t
    cases s <;> cases t <;> simp [validTransition]

/-- C8: display normalization maps an absent value, `1gbit` and `1Gbit` to
the empty string and rewrites `Mbit` to `mbit`; applying maps an empty
input back to the `1gbit` sentinel; hence a rule applied with all four
fields at the sentinel displays exactly like a device with no rule. -/
theorem c8_roundtrip :
    cleanBandwidth none = "" ∧
    cleanBandwidth (some "1gbit") = "" ∧
    cleanBandwidth (some "1Gbit") = "" ∧
    cleanBandwidth (some "20Mbit") = "20mbit" ∧
    applyDefault "" = "1gbit" ∧
    cleanBandwidth (some (applyDefault "")) = cleanBandwidth none ∧
    ((cleanBandwidth (ruleAllOf (applyDefault "")).downstream_rate,
      cleanBandwidth (ruleAllOf (applyDefault "")).downstream_ceil,
      cleanBandwidth (ruleAllOf (applyDefault "")).upstream_rate,
      cleanBandwidth (ruleAllOf (applyDefault "")).upstream_ceil) =
     (cleanBandwidth none, cleanBandwidth none,
      cleanBandwidth none, cleanBandwidth none)) := by
  decide

/-- C9: each arriving snapshot appends exactly one point and the history is
truncated to the 60 most recent entries, so it never exceeds 60 points. -/
theorem c9_history_bound (α : Type) (prev : List α) (p : α) :
    (historyStep prev p).length ≤ 60 ∧
    (historyStep prev p).length = min (prev.length + 1) 60 ∧
    historyStep prev p = prev.drop (prev.length + 1 - 60) ++ [p] := by
  refine ⟨?_, ?_, ?_⟩
  · simp [historyStep, jsSliceLast]
    omega
  · simp [historyStep, jsSliceLast]
    omega
  · simp only [historyStep, jsSliceLast, List.length_append, List.length_singleton]
    rw [List.drop_append_of_le_length (by omega)]

/-- C10: a metrics event whose payload fails to parse leaves the data state
unchanged and sets the error state; only a successfully parsed payload
replaces the data state (and leaves the error state alone). -/
theorem c10_sse (M : Type) (parseSnap : String → Option M) (s : SSEState M)
    (payload : String) :
    (parseSnap payload = none →
      (handleMetricsEvent parseSnap s payload).data = s.data ∧
      (handleMetricsEvent parseSnap s payload).error =
        some "Failed to parse metrics") ∧
    (∀ m : M, parseSnap payload = some m →
      (handleMetricsEvent parseSnap s payload).data = some m ∧
      (handleMetricsEvent parseSnap s payload).error = s.error) := by
  constructor
  · intro h
    simp [handleMetricsEvent, h]
  · intro m h
    simp [handleMetricsEvent, h]

/-- C10 witness: with a parser accepting only `"snap"`, a bad payload keeps
the previous snapshot and records the error, while a good payload replaces
the snapshot. -/
theorem c10_sse_witness :
    (handleMetricsEvent demoParse ⟨some 3, none⟩ "bad").data = some 3 ∧
    (handleMetricsEvent demoParse ⟨some 3, none⟩ "bad").error =
      some "Failed to parse metrics" ∧
    (handleMetricsEvent demoParse ⟨some 3, none⟩ "snap").data = some 7 := by
  have h1 := (c10_sse Nat demoParse ⟨some 3, none⟩ "bad").1 (by decide)
  have h2 := (c10_sse Nat demoParse ⟨some 3, none⟩ "snap").2 7 (by decide)
  exact ⟨h1.1, h1.2, h2.1⟩

end QC
